import Mathlib

/-!
Shallow embedding of the SimpleToken ink! contract (src/lib.rs).

Account identities are opaque comparable values, modelled as `Nat`.
`u128` values are modelled as `Nat` together with explicit saturation at
`U128_MAX = 2^128 - 1`, matching `saturating_add` / `saturating_sub` in the
source.  `ink::storage::Mapping` is modelled as an optional-valued function:
`get` returns `Option`, and every read in the source is `get(..).unwrap_or d`,
modelled with `Option.getD`.  Each `#[ink(message)]` method takes the caller
(`self.env().caller()`) as an explicit argument, and returns the updated
storage struct together with the `Result<(), String>` value (errors carry the
exact message strings of the source).  Event emission is external and carries
no ledger state, so it is not modelled.
-/

abbrev AccountId := Nat

/-- Maximum representable `u128` value. -/
def U128_MAX : Nat := 2 ^ 128 - 1

/-- `u128::saturating_add`, on the `Nat` model. -/
def satAdd (a b : Nat) : Nat := min (a + b) U128_MAX

/-- `u128::saturating_sub`, on the `Nat` model (truncated `Nat` subtraction). -/
def satSub (a b : Nat) : Nat := a - b

/-- Model of `ink::storage::Mapping`: a key-indexed optional value map. -/
structure Mapping (α β : Type) where
  get : α → Option β

/-- `Mapping::insert`. -/
def Mapping.insert {α β : Type} [DecidableEq α] (m : Mapping α β) (k : α) (v : β) :
    Mapping α β :=
  ⟨fun x => if x = k then some v else m.get x⟩

/-- `Mapping::default()`: the empty mapping. -/
def Mapping.empty {α β : Type} : Mapping α β := ⟨fun _ => none⟩

/-- The `#[ink(storage)]` struct of the contract. -/
structure SimpleToken where
  balances : Mapping AccountId Nat
  allowances : Mapping (AccountId × AccountId) Nat
  owner : AccountId
  paused : Bool
  blacklist : Mapping AccountId Bool

/-- Constructor `new()`: caller becomes owner, maps empty, not paused. -/
def SimpleToken.new (caller : AccountId) : SimpleToken :=
  { balances := Mapping.empty
    allowances := Mapping.empty
    owner := caller
    paused := false
    blacklist := Mapping.empty }

/-- Internal check `can_transfer` for pause/blacklist. -/
def can_transfer (s : SimpleToken) (frm toAcc : AccountId) : Except String Unit :=
  if s.paused then .error "Transfers are paused"
  else if (s.blacklist.get frm).getD false then .error "Sender is blacklisted"
  else if (s.blacklist.get toAcc).getD false then .error "Recipient is blacklisted"
  else .ok ()

/-- `mint` (only owner): saturating credit of `amount` onto `toAcc`. -/
def mint (s : SimpleToken) (caller toAcc : AccountId) (amount : Nat) :
    SimpleToken × Except String Unit :=
  if caller ≠ s.owner then (s, .error "Only the owner can mint tokens")
  else
    let current := (s.balances.get toAcc).getD 0
    let new_balance := satAdd current amount
    ({ s with balances := s.balances.insert toAcc new_balance }, .ok ())

/-- `burn`: caller destroys its own holdings. -/
def burn (s : SimpleToken) (caller : AccountId) (amount : Nat) :
    SimpleToken × Except String Unit :=
  let balance := (s.balances.get caller).getD 0
  if balance < amount then (s, .error "Not enough balance to burn")
  else
    let updated := satSub balance amount
    ({ s with balances := s.balances.insert caller updated }, .ok ())

/-- `balance_of`: read a balance, absent entries read as 0. -/
def balance_of (s : SimpleToken) (owner : AccountId) : Nat :=
  (s.balances.get owner).getD 0

/-- `transfer`: gated by `can_transfer`, debit caller then credit `toAcc`
(the recipient balance is re-read after the debit write). -/
def transfer (s : SimpleToken) (caller toAcc : AccountId) (amount : Nat) :
    SimpleToken × Except String Unit :=
  match can_transfer s caller toAcc with
  | .error e => (s, .error e)
  | .ok _ =>
    let from_balance := (s.balances.get caller).getD 0
    if from_balance < amount then (s, .error "Not enough balance")
    else
      let updated_from := satSub from_balance amount
      let s1 : SimpleToken := { s with balances := s.balances.insert caller updated_from }
      let to_balance := (s1.balances.get toAcc).getD 0
      let updated_to := satAdd to_balance amount
      let s2 : SimpleToken := { s1 with balances := s1.balances.insert toAcc updated_to }
      (s2, .ok ())

/-- `approve`: unconditional overwrite of the (caller, spender) allowance. -/
def approve (s : SimpleToken) (caller spender : AccountId) (amount : Nat) :
    SimpleToken × Except String Unit :=
  ({ s with allowances := s.allowances.insert (caller, spender) amount }, .ok ())

/-- `allowance` query, default 0. -/
def allowance (s : SimpleToken) (owner spender : AccountId) : Nat :=
  (s.allowances.get (owner, spender)).getD 0

/-- `transfer_from`: gated by `can_transfer`, then allowance check, then
balance check, then balance updates, then allowance update. -/
def transfer_from (s : SimpleToken) (caller frm toAcc : AccountId) (amount : Nat) :
    SimpleToken × Except String Unit :=
  match can_transfer s frm toAcc with
  | .error e => (s, .error e)
  | .ok _ =>
    let allw := (s.allowances.get (frm, caller)).getD 0
    if allw < amount then (s, .error "Allowance too low")
    else
      let from_balance := (s.balances.get frm).getD 0
      if from_balance < amount then (s, .error "Not enough balance")
      else
        let s1 : SimpleToken := { s with balances := s.balances.insert frm (satSub from_balance amount) }
        let to_balance := (s1.balances.get toAcc).getD 0
        let s2 : SimpleToken := { s1 with balances := s1.balances.insert toAcc (satAdd to_balance amount) }
        let s3 : SimpleToken := { s2 with allowances := s2.allowances.insert (frm, caller) (satSub allw amount) }
        (s3, .ok ())

/-- `set_paused` (owner only). -/
def set_paused (s : SimpleToken) (caller : AccountId) (state : Bool) :
    SimpleToken × Except String Unit :=
  if caller ≠ s.owner then (s, .error "Only owner can pause/unpause")
  else ({ s with paused := state }, .ok ())

/-- `set_blacklist` (owner only). -/
def set_blacklist (s : SimpleToken) (caller account : AccountId) (state : Bool) :
    SimpleToken × Except String Unit :=
  if caller ≠ s.owner then (s, .error "Only owner can manage blacklist")
  else ({ s with blacklist := s.blacklist.insert account state }, .ok ())

/-- The sequential loop body of `batch_transfer`, over the paired lists. -/
def batchGo (s : SimpleToken) (caller : AccountId) :
    List (AccountId × Nat) → SimpleToken × Except String Unit
  | [] => (s, .ok ())
  | (r, a) :: rest =>
    match transfer s caller r a with
    | (s1, .ok _) => batchGo s1 caller rest
    | (s1, .error e) => (s1, .error e)

/-- `batch_transfer`: length check, then sequential transfers with early
return on the first error (no rollback). -/
def batch_transfer (s : SimpleToken) (caller : AccountId)
    (recipients : List AccountId) (amounts : List Nat) :
    SimpleToken × Except String Unit :=
  if recipients.length ≠ amounts.length then (s, .error "Mismatched input lengths")
  else batchGo s caller (recipients.zip amounts)

/-- Sum of the balances of a list of accounts. -/
def balSum (s : SimpleToken) (accts : List AccountId) : Nat :=
  (accts.map fun a => (s.balances.get a).getD 0).sum

/-- The composite balance update shared by `transfer` and `transfer_from`:
debit `n` from `a`, then saturating-credit `n` onto `b`, the balance of `b`
being re-read after the debit write. -/
def debitCredit (bal : Mapping AccountId Nat) (a b : AccountId) (n : Nat) :
    Mapping AccountId Nat :=
  (bal.insert a ((bal.get a).getD 0 - n)).insert b
    (satAdd (((bal.insert a ((bal.get a).getD 0 - n)).get b).getD 0) n)

/-- A concrete state used for witnesses: owner 0, account 1 holds 100,
account 2 holds the maximum `u128` value, allowance (1,3) is 50, not
paused, empty blacklist. -/
def sW : SimpleToken :=
  { balances := (Mapping.empty.insert 1 100).insert 2 U128_MAX
    allowances := Mapping.empty.insert (1, 3) 50
    owner := 0
    paused := false
    blacklist := Mapping.empty }

/-- A concrete paused state with account 1 blacklisted and holding 100. -/
def sP : SimpleToken :=
  { balances := Mapping.empty.insert 1 100
    allowances := Mapping.empty
    owner := 0
    paused := true
    blacklist := Mapping.empty.insert 1 true }

/-- A concrete unpaused state with account 1 blacklisted and holding 100. -/
def sB : SimpleToken :=
  { balances := Mapping.empty.insert 1 100
    allowances := Mapping.empty
    owner := 0
    paused := false
    blacklist := Mapping.empty.insert 1 true }

theorem Mapping.get_insert_self {α β : Type} [DecidableEq α] (m : Mapping α β) (k : α) (v : β) :
    (m.insert k v).get k = some v := by
  simp [Mapping.insert]

theorem Mapping.get_insert_ne {α β : Type} [DecidableEq α] (m : Mapping α β) (k x : α) (v : β)
    (h : x ≠ k) : (m.insert k v).get x = m.get x := by
  simp [Mapping.insert, h]

/-- Exchange law for the balance sum under a single map update: the sum over
a duplicate-free list containing the updated key gains the new value and
loses the old one. -/
theorem sum_insert_exchange {bal : Mapping AccountId Nat} {accts : List AccountId}
    {x : AccountId} {v : Nat} (hx : x ∈ accts) (hnd : accts.Nodup) :
    (accts.map fun a => ((bal.insert x v).get a).getD 0).sum + (bal.get x).getD 0
      = (accts.map fun a => (bal.get a).getD 0).sum + v := by
  induction accts with
  | nil => cases hx
  | cons hd tl ih =>
    rw [List.nodup_cons] at hnd
    by_cases hhx : hd = x
    · subst hhx
      have htl : ∀ a ∈ tl, ((bal.insert hd v).get a).getD 0 = (bal.get a).getD 0 := by
        intro a hamem
        rw [Mapping.get_insert_ne]
        exact fun h => hnd.1 (h ▸ hamem)
      simp only [List.map_cons, List.sum_cons, Mapping.get_insert_self]
      rw [List.map_congr_left htl]
      simp only [Option.getD_some]
      omega
    · have hxtl : x ∈ tl := by
        rcases List.mem_cons.mp hx with h | h
        · exact absurd h.symm hhx
        · exact h
      have hrec := ih hxtl hnd.2
      simp only [List.map_cons, List.sum_cons]
      rw [Mapping.get_insert_ne bal x hd v hhx]
      omega

/-- Characterization of a successful `transfer`: the gate passed, the caller
had enough balance, and the final state is the caller debit followed by the
saturating recipient credit (recipient balance re-read after the debit). -/
theorem transfer_ok_elim {s : SimpleToken} {a b : AccountId} {n : Nat}
    (hok : (transfer s a b n).2 = Except.ok ()) :
    can_transfer s a b = Except.ok () ∧ n ≤ (s.balances.get a).getD 0 ∧
    (transfer s a b n).1 = { s with balances := debitCredit s.balances a b n } := by
  cases hct : can_transfer s a b with
  | error e => simp [transfer, hct] at hok
  | ok u =>
    cases u
    by_cases hlt : (s.balances.get a).getD 0 < n
    · simp [transfer, hct, hlt] at hok
    · refine ⟨rfl, by omega, ?_⟩
      simp [transfer, hct, hlt, satSub, debitCredit]

/-- Characterization of a successful `transfer_from`: the gate passed, the
allowance and the balance sufficed, and the final state performs the debit,
the saturating credit (balance re-read after the debit), and the allowance
decrement. -/
theorem transfer_from_ok_elim {s : SimpleToken} {c frm b : AccountId} {n : Nat}
    (hok : (transfer_from s c frm b n).2 = Except.ok ()) :
    can_transfer s frm b = Except.ok () ∧ n ≤ (s.allowances.get (frm, c)).getD 0
    ∧ n ≤ (s.balances.get frm).getD 0
    ∧ (transfer_from s c frm b n).1 =
      { s with
        balances := debitCredit s.balances frm b n,
        allowances := s.allowances.insert (frm, c) ((s.allowances.get (frm, c)).getD 0 - n) } := by
  cases hct : can_transfer s frm b with
  | error e => simp [transfer_from, hct] at hok
  | ok u =>
    cases u
    by_cases hal : (s.allowances.get (frm, c)).getD 0 < n
    · simp [transfer_from, hct, hal] at hok
    · by_cases hlt : (s.balances.get frm).getD 0 < n
      · simp [transfer_from, hct, hal, hlt] at hok
      · refine ⟨rfl, by omega, by omega, ?_⟩
        simp [transfer_from, hct, hal, hlt, satSub, debitCredit]

/-- C7: `approve` (delegate) is an unconditional overwrite: delegating N1
then N2 leaves the allowance at N2 (not N1 + N2), both calls succeed
regardless of the owner's balance, and no balance changes. -/
theorem C7_approve_overwrites (s : SimpleToken) (a c : AccountId) (n1 n2 : Nat) :
    (approve s a c n1).2 = Except.ok ()
    ∧ (approve (approve s a c n1).1 a c n2).2 = Except.ok ()
    ∧ allowance (approve (approve s a c n1).1 a c n2).1 a c = n2
    ∧ (approve (approve s a c n1).1 a c n2).1.balances = s.balances := by
  refine ⟨rfl, rfl, ?_, rfl⟩
  simp [approve, allowance, Mapping.insert]

/-- C8: after a successful `mint` by the owner, the recipient balance is
the saturating sum min(old + N, U128_MAX): exact unless the addition would
overflow, in which case it caps at the maximum. -/
theorem C8_mint_saturates (s : SimpleToken) (a : AccountId) (n : Nat)
    (hok : (mint s s.owner a n).2 = Except.ok ()) :
    balance_of (mint s s.owner a n).1 a = min (balance_of s a + n) U128_MAX := by
  simp [mint, balance_of, satAdd, Mapping.get_insert_self]

/-- Witness for C8 at a concrete state and input. -/
theorem C8_mint_saturates_witness :
    balance_of (mint sW sW.owner 1 5).1 1 = min (balance_of sW 1 + 5) U128_MAX :=
  C8_mint_saturates sW 1 5 rfl

/-- C2: for every operation other than batch_transfer (mint, burn, transfer,
transfer_from, set_paused, set_blacklist), any error leaves the entire state
exactly as it was before the call. -/
theorem C2_error_leaves_state_unchanged (s : SimpleToken) (caller a b : AccountId)
    (n : Nat) (st : Bool) :
    ((mint s caller a n).2.isOk = false → (mint s caller a n).1 = s)
    ∧ ((burn s caller n).2.isOk = false → (burn s caller n).1 = s)
    ∧ ((transfer s caller b n).2.isOk = false → (transfer s caller b n).1 = s)
    ∧ ((transfer_from s caller a b n).2.isOk = false → (transfer_from s caller a b n).1 = s)
    ∧ ((set_paused s caller st).2.isOk = false → (set_paused s caller st).1 = s)
    ∧ ((set_blacklist s caller a st).2.isOk = false → (set_blacklist s caller a st).1 = s) := by
  refine ⟨?_, ?_, ?_, ?_, ?_, ?_⟩
  · intro h
    by_cases hc : caller = s.owner
    · simp [mint, hc, Except.isOk, Except.toBool] at h
    · simp [mint, hc]
  · intro h
    by_cases hlt : (s.balances.get caller).getD 0 < n
    · simp [burn, hlt]
    · simp [burn, hlt, Except.isOk, Except.toBool] at h
  · intro h
    cases hct : can_transfer s caller b with
    | error e => simp [transfer, hct]
    | ok u =>
      cases u
      by_cases hlt : (s.balances.get caller).getD 0 < n
      · simp [transfer, hct, hlt]
      · simp [transfer, hct, hlt, Except.isOk, Except.toBool] at h
  · intro h
    cases hct : can_transfer s a b with
    | error e => simp [transfer_from, hct]
    | ok u =>
      cases u
      by_cases hal : (s.allowances.get (a, caller)).getD 0 < n
      · simp [transfer_from, hct, hal]
      · by_cases hlt : (s.balances.get a).getD 0 < n
        · simp [transfer_from, hct, hal, hlt]
        · simp [transfer_from, hct, hal, hlt, Except.isOk, Except.toBool] at h
  · intro h
    by_cases hc : caller = s.owner
    · simp [set_paused, hc, Except.isOk, Except.toBool] at h
    · simp [set_paused, hc]
  · intro h
    by_cases hc : caller = s.owner
    · simp [set_blacklist, hc, Except.isOk, Except.toBool] at h
    · simp [set_blacklist, hc]

/-- Witness for C2: at a concrete state, every one of the six operations
fails and leaves the state unchanged. -/
theorem C2_error_leaves_state_unchanged_witness :
    (mint sW 5 1 1).1 = sW ∧ (burn sW 5 1).1 = sW ∧ (transfer sW 5 2 1).1 = sW
    ∧ (transfer_from sW 5 1 2 1).1 = sW ∧ (set_paused sW 5 true).1 = sW
    ∧ (set_blacklist sW 5 1 true).1 = sW :=
  ⟨(C2_error_leaves_state_unchanged sW 5 1 2 1 true).1 rfl,
   (C2_error_leaves_state_unchanged sW 5 1 2 1 true).2.1 rfl,
   (C2_error_leaves_state_unchanged sW 5 1 2 1 true).2.2.1 rfl,
   (C2_error_leaves_state_unchanged sW 5 1 2 1 true).2.2.2.1 rfl,
   (C2_error_leaves_state_unchanged sW 5 1 2 1 true).2.2.2.2.1 rfl,
   (C2_error_leaves_state_unchanged sW 5 1 2 1 true).2.2.2.2.2 rfl⟩

/-- C4: in `transfer_from` the allowance check precedes the balance check:
when the gate passes, the allowance is too low and the balance is also too
low, the call fails with the allowance error, leaving the state unchanged. -/
theorem C4_allowance_before_balance (s : SimpleToken) (c frm t : AccountId) (n : Nat)
    (hct : can_transfer s frm t = Except.ok ())
    (hal : allowance s frm c < n)
    (hb : balance_of s frm < n) :
    transfer_from s c frm t n = (s, Except.error "Allowance too low") := by
  simp only [allowance] at hal
  simp [transfer_from, hct, hal]

/-- Witness for C4 at a concrete state and input. -/
theorem C4_allowance_before_balance_witness :
    can_transfer sW 4 5 = Except.ok () ∧ allowance sW 4 9 < 1 ∧ balance_of sW 4 < 1
    ∧ transfer_from sW 9 4 5 1 = (sW, Except.error "Allowance too low") :=
  ⟨rfl, by decide, by decide, C4_allowance_before_balance sW 9 4 5 1 rfl (by decide) (by decide)⟩

/-- C6: mint, set_paused and set_blacklist fail Unauthorized with the state
unchanged whenever the caller is not the owner; called by the owner they
succeed unconditionally (mint credits with saturation, set_paused sets the
flag, set_blacklist sets the membership). -/
theorem C6_owner_gated (s : SimpleToken) (c a : AccountId) (n : Nat) (st : Bool) :
    (c ≠ s.owner →
      mint s c a n = (s, Except.error "Only the owner can mint tokens")
      ∧ set_paused s c st = (s, Except.error "Only owner can pause/unpause")
      ∧ set_blacklist s c a st = (s, Except.error "Only owner can manage blacklist"))
    ∧ (c = s.owner →
      (mint s c a n).2 = Except.ok ()
      ∧ balance_of (mint s c a n).1 a = satAdd (balance_of s a) n
      ∧ (set_paused s c st).2 = Except.ok ()
      ∧ (set_paused s c st).1.paused = st
      ∧ (set_blacklist s c a st).2 = Except.ok ()
      ∧ ((set_blacklist s c a st).1.blacklist.get a).getD false = st) := by
  constructor
  · intro hc
    exact ⟨by simp [mint, hc], by simp [set_paused, hc], by simp [set_blacklist, hc]⟩
  · intro hc
    refine ⟨by simp [mint, hc], ?_, by simp [set_paused, hc], by simp [set_paused, hc],
      by simp [set_blacklist, hc], ?_⟩
    · simp [mint, hc, balance_of, Mapping.get_insert_self]
    · simp [set_blacklist, hc, Mapping.get_insert_self]

/-- Witness for C6: a non-owner call of each operation fails, an owner call
of each operation succeeds, at a concrete state. -/
theorem C6_owner_gated_witness :
    (mint sW 5 1 2 = (sW, Except.error "Only the owner can mint tokens")
      ∧ set_paused sW 5 true = (sW, Except.error "Only owner can pause/unpause")
      ∧ set_blacklist sW 5 1 true = (sW, Except.error "Only owner can manage blacklist"))
    ∧ ((mint sW 0 1 2).2 = Except.ok ()
      ∧ balance_of (mint sW 0 1 2).1 1 = satAdd (balance_of sW 1) 2
      ∧ (set_paused sW 0 true).2 = Except.ok ()
      ∧ (set_paused sW 0 true).1.paused = true
      ∧ (set_blacklist sW 0 1 true).2 = Except.ok ()
      ∧ ((set_blacklist sW 0 1 true).1.blacklist.get 1).getD false = true) :=
  ⟨(C6_owner_gated sW 5 1 2 true).1 (by decide), (C6_owner_gated sW 0 1 2 true).2 rfl⟩

/-- C3: batch_transfer rejects mismatched lengths touching no state, and
otherwise applies the transfers in order, stopping at the first failure
with that failure's error while keeping earlier commits, and succeeding
when every element succeeds. -/
theorem C3_batch_transfer_semantics (s s1 : SimpleToken) (c r : AccountId) (a : Nat)
    (rcpts : List AccountId) (amts : List Nat) (e : String) :
    (rcpts.length ≠ amts.length →
      batch_transfer s c rcpts amts = (s, Except.error "Mismatched input lengths"))
    ∧ batch_transfer s c [] [] = (s, Except.ok ())
    ∧ (rcpts.length = amts.length → transfer s c r a = (s1, Except.error e) →
      batch_transfer s c (r :: rcpts) (a :: amts) = (s1, Except.error e))
    ∧ (rcpts.length = amts.length → transfer s c r a = (s1, Except.ok ()) →
      batch_transfer s c (r :: rcpts) (a :: amts) = batch_transfer s1 c rcpts amts) := by
  refine ⟨?_, rfl, ?_, ?_⟩
  · intro h
    simp [batch_transfer, h]
  · intro hlen htr
    simp [batch_transfer, hlen, batchGo, htr]
  · intro hlen htr
    simp [batch_transfer, hlen, batchGo, htr, List.zip]

/-- Witness for C3: a mismatched batch fails with no state change, the empty
batch succeeds, a batch whose head transfer fails returns that error, and a
batch whose head succeeds continues on the updated state. -/
theorem C3_batch_transfer_semantics_witness :
    batch_transfer sW 1 [0] [] = (sW, Except.error "Mismatched input lengths")
    ∧ batch_transfer sW 1 [] [] = (sW, Except.ok ())
    ∧ batch_transfer sW 1 [9] [200] = (sW, Except.error "Not enough balance")
    ∧ batch_transfer sW 1 [2] [7] = batch_transfer (transfer sW 1 2 7).1 1 [] [] :=
  ⟨(C3_batch_transfer_semantics sW sW 1 9 200 [0] [] "x").1 (by decide),
   (C3_batch_transfer_semantics sW sW 1 9 200 [] [] "x").2.1,
   (C3_batch_transfer_semantics sW sW 1 9 200 [] [] "Not enough balance").2.2.1 rfl rfl,
   (C3_batch_transfer_semantics sW (transfer sW 1 2 7).1 1 2 7 [] [] "x").2.2.2 rfl rfl⟩

/-- C5 counterexample: in a paused state with a blacklisted sender, transfer
fails with the paused error and not with a blacklist error, refuting the
unconditional reading of the blacklist clause. -/
theorem C5_counterexample :
    sP.paused = true
    ∧ (sP.blacklist.get 1).getD false = true
    ∧ (transfer sP 1 2 5).2 = Except.error "Transfers are paused"
    ∧ ("Transfers are paused" : String) ≠ "Sender is blacklisted"
    ∧ ("Transfers are paused" : String) ≠ "Recipient is blacklisted" :=
  ⟨rfl, rfl, rfl, by decide, by decide⟩

/-- C5 (amended): while paused every transfer and delegated transfer fails
with the paused error regardless of balances; when not paused a blacklisted
sender or recipient makes them fail with a blacklist error; pause and
blacklist gate only the balance-moving operations: mint by the owner and
burn with sufficient balance succeed in every state, paused or not,
blacklisted parties or not. -/
theorem C5_pause_blacklist_gating (s : SimpleToken) (c t frm : AccountId) (n : Nat) :
    (s.paused = true →
      (transfer s c t n).2 = Except.error "Transfers are paused"
      ∧ (transfer_from s c frm t n).2 = Except.error "Transfers are paused")
    ∧ (s.paused = false →
      ((s.blacklist.get c).getD false = true ∨ (s.blacklist.get t).getD false = true) →
      ((transfer s c t n).2 = Except.error "Sender is blacklisted"
        ∨ (transfer s c t n).2 = Except.error "Recipient is blacklisted"))
    ∧ (s.paused = false →
      ((s.blacklist.get frm).getD false = true ∨ (s.blacklist.get t).getD false = true) →
      ((transfer_from s c frm t n).2 = Except.error "Sender is blacklisted"
        ∨ (transfer_from s c frm t n).2 = Except.error "Recipient is blacklisted"))
    ∧ (c = s.owner → (mint s c t n).2 = Except.ok ())
    ∧ (n ≤ balance_of s c → (burn s c n).2 = Except.ok ()) := by
  refine ⟨?_, ?_, ?_, ?_, ?_⟩
  · intro hp
    exact ⟨by simp [transfer, can_transfer, hp], by simp [transfer_from, can_transfer, hp]⟩
  · intro hp hbl
    by_cases hc : (s.blacklist.get c).getD false = true
    · exact Or.inl (by simp [transfer, can_transfer, hp, hc])
    · have ht : (s.blacklist.get t).getD false = true := by tauto
      exact Or.inr (by simp [transfer, can_transfer, hp, hc, ht])
  · intro hp hbl
    by_cases hc : (s.blacklist.get frm).getD false = true
    · exact Or.inl (by simp [transfer_from, can_transfer, hp, hc])
    · have ht : (s.blacklist.get t).getD false = true := by tauto
      exact Or.inr (by simp [transfer_from, can_transfer, hp, hc, ht])
  · intro hc
    simp [mint, hc]
  · intro hble
    have hlt : ¬((s.balances.get c).getD 0 < n) := by
      simp only [balance_of] at hble
      omega
    simp [burn, hlt]

/-- Witness for C5: the paused, owner and burn clauses at a paused state,
and the blacklist clauses at an unpaused state with a blacklisted sender. -/
theorem C5_pause_blacklist_gating_witness :
    ((transfer sP 0 2 0).2 = Except.error "Transfers are paused"
      ∧ (transfer_from sP 0 1 2 0).2 = Except.error "Transfers are paused")
    ∧ ((transfer sB 1 2 5).2 = Except.error "Sender is blacklisted"
      ∨ (transfer sB 1 2 5).2 = Except.error "Recipient is blacklisted")
    ∧ ((transfer_from sB 1 1 2 5).2 = Except.error "Sender is blacklisted"
      ∨ (transfer_from sB 1 1 2 5).2 = Except.error "Recipient is blacklisted")
    ∧ (mint sP 0 2 0).2 = Except.ok ()
    ∧ (burn sP 0 0).2 = Except.ok () :=
  ⟨(C5_pause_blacklist_gating sP 0 2 1 0).1 rfl,
   (C5_pause_blacklist_gating sB 1 2 1 5).2.1 rfl (Or.inl rfl),
   (C5_pause_blacklist_gating sB 1 2 1 5).2.2.1 rfl (Or.inl rfl),
   (C5_pause_blacklist_gating sP 0 2 1 0).2.2.2.1 rfl,
   (C5_pause_blacklist_gating sP 0 2 1 0).2.2.2.2 (Nat.zero_le _)⟩

/-- Effect of the shared debit-then-credit update on individual balances and
on the balance sum, in the non-saturating case with distinct accounts. -/
theorem debitCredit_balances {bal : Mapping AccountId Nat} {a b : AccountId} {n : Nat}
    (hab : a ≠ b) (hn : n ≤ (bal.get a).getD 0)
    (hcap : (bal.get b).getD 0 + n ≤ U128_MAX) :
    ((debitCredit bal a b n).get a).getD 0 + n = (bal.get a).getD 0
    ∧ ((debitCredit bal a b n).get b).getD 0 = (bal.get b).getD 0 + n
    ∧ ∀ accts : List AccountId, accts.Nodup → a ∈ accts → b ∈ accts →
      (accts.map fun x => ((debitCredit bal a b n).get x).getD 0).sum
        = (accts.map fun x => (bal.get x).getD 0).sum := by
  have hba : b ≠ a := fun h => hab h.symm
  have h1 : ((bal.insert a ((bal.get a).getD 0 - n)).get b) = bal.get b :=
    Mapping.get_insert_ne bal a b _ hba
  have hsat : satAdd ((bal.get b).getD 0) n = (bal.get b).getD 0 + n := by
    simp only [satAdd]
    omega
  refine ⟨?_, ?_, ?_⟩
  · simp only [debitCredit]
    rw [Mapping.get_insert_ne _ b a _ hab, Mapping.get_insert_self]
    simp only [Option.getD_some]
    omega
  · simp only [debitCredit]
    rw [Mapping.get_insert_self]
    simp only [Option.getD_some, h1, hsat]
  · intro accts hnd hamem hbmem
    simp only [debitCredit]
    have e1 := @sum_insert_exchange bal accts a ((bal.get a).getD 0 - n) hamem hnd
    have e2 := @sum_insert_exchange (bal.insert a ((bal.get a).getD 0 - n)) accts b
      (satAdd (((bal.insert a ((bal.get a).getD 0 - n)).get b).getD 0) n) hbmem hnd
    rw [h1] at e2 ⊢
    rw [hsat] at e2 ⊢
    omega

/-- C1 counterexample: at a state where the recipient already holds the
maximum u128 value, a transfer of 7 succeeds but the recipient balance does
not increase by 7 (it saturates) and the sum of balances is not preserved. -/
theorem C1_counterexample :
    (transfer sW 1 2 7).2 = Except.ok ()
    ∧ balance_of sW 2 = U128_MAX
    ∧ balance_of (transfer sW 1 2 7).1 2 ≠ balance_of sW 2 + 7
    ∧ balSum (transfer sW 1 2 7).1 [1, 2] ≠ balSum sW [1, 2] :=
  ⟨rfl, rfl, by decide, by decide⟩

/-- C1 (amended): for distinct accounts, when the recipient credit does not
saturate (old recipient balance + N fits in u128), every successful transfer
decreases the sender balance by N, increases the recipient balance by N and
preserves the sum of balances over any duplicate-free account list containing
both; and likewise for every successful delegated transfer. -/
theorem C1_conservation (s : SimpleToken) (a b c : AccountId) (n : Nat)
    (accts : List AccountId) (hnd : accts.Nodup) (ha : a ∈ accts) (hb : b ∈ accts)
    (hab : a ≠ b) (hcap : balance_of s b + n ≤ U128_MAX) :
    ((transfer s a b n).2 = Except.ok () →
      balance_of (transfer s a b n).1 a + n = balance_of s a
      ∧ balance_of (transfer s a b n).1 b = balance_of s b + n
      ∧ balSum (transfer s a b n).1 accts = balSum s accts)
    ∧ ((transfer_from s c a b n).2 = Except.ok () →
      balance_of (transfer_from s c a b n).1 a + n = balance_of s a
      ∧ balance_of (transfer_from s c a b n).1 b = balance_of s b + n
      ∧ balSum (transfer_from s c a b n).1 accts = balSum s accts) := by
  have hcap2 : (s.balances.get b).getD 0 + n ≤ U128_MAX := hcap
  constructor
  · intro hok
    obtain ⟨hct, hn, hst⟩ := transfer_ok_elim hok
    obtain ⟨d1, d2, d3⟩ := debitCredit_balances hab hn hcap2
    rw [hst]
    exact ⟨d1, d2, d3 accts hnd ha hb⟩
  · intro hok
    obtain ⟨hct, hal, hn, hst⟩ := transfer_from_ok_elim hok
    obtain ⟨d1, d2, d3⟩ := debitCredit_balances hab hn hcap2
    rw [hst]
    exact ⟨d1, d2, d3 accts hnd ha hb⟩

/-- Witness for C1 at a concrete state: both a direct and a delegated
transfer of 10 from account 1 to account 4. -/
theorem C1_conservation_witness :
    (([1, 4] : List AccountId).Nodup ∧ (1 : AccountId) ∈ [1, 4] ∧ (4 : AccountId) ∈ [1, 4]
      ∧ (1 : AccountId) ≠ 4 ∧ balance_of sW 4 + 10 ≤ U128_MAX)
    ∧ (balance_of (transfer sW 1 4 10).1 1 + 10 = balance_of sW 1
      ∧ balance_of (transfer sW 1 4 10).1 4 = balance_of sW 4 + 10
      ∧ balSum (transfer sW 1 4 10).1 [1, 4] = balSum sW [1, 4])
    ∧ (balance_of (transfer_from sW 3 1 4 10).1 1 + 10 = balance_of sW 1
      ∧ balance_of (transfer_from sW 3 1 4 10).1 4 = balance_of sW 4 + 10
      ∧ balSum (transfer_from sW 3 1 4 10).1 [1, 4] = balSum sW [1, 4]) :=
  ⟨⟨by decide, by decide, by decide, by decide, by decide⟩,
   (C1_conservation sW 1 4 3 10 [1, 4] (by decide) (by decide) (by decide)
     (by decide) (by decide)).1 rfl,
   (C1_conservation sW 1 4 3 10 [1, 4] (by decide) (by decide) (by decide)
     (by decide) (by decide)).2 rfl⟩

/-- C9: a self-transfer with a passing gate, sufficient balance and a
representable balance succeeds and leaves every balance unchanged, because
the credit re-reads the balance written by the debit. -/
theorem C9_self_transfer (s : SimpleToken) (a : AccountId) (n : Nat)
    (hct : can_transfer s a a = Except.ok ())
    (hge : n ≤ balance_of s a)
    (hwf : balance_of s a ≤ U128_MAX) :
    (transfer s a a n).2 = Except.ok ()
    ∧ ∀ x, balance_of (transfer s a a n).1 x = balance_of s x := by
  have hlt : ¬((s.balances.get a).getD 0 < n) := by
    simp only [balance_of] at hge
    omega
  have hok : (transfer s a a n).2 = Except.ok () := by
    simp [transfer, hct, hlt]
  obtain ⟨-, -, hst⟩ := transfer_ok_elim hok
  refine ⟨hok, ?_⟩
  intro x
  rw [hst]
  by_cases hx : x = a
  · subst hx
    simp only [balance_of, debitCredit, Mapping.get_insert_self, Option.getD_some, satAdd]
    simp only [balance_of] at hge hwf
    omega
  · simp only [balance_of, debitCredit]
    rw [Mapping.get_insert_ne _ _ _ _ hx, Mapping.get_insert_ne _ _ _ _ hx]

/-- Witness for C9: a self-transfer of 30 by account 1 at a concrete state,
checked on the balances of accounts 1 and 2. -/
theorem C9_self_transfer_witness :
    can_transfer sW 1 1 = Except.ok () ∧ 30 ≤ balance_of sW 1 ∧ balance_of sW 1 ≤ U128_MAX
    ∧ (transfer sW 1 1 30).2 = Except.ok ()
    ∧ balance_of (transfer sW 1 1 30).1 1 = balance_of sW 1
    ∧ balance_of (transfer sW 1 1 30).1 2 = balance_of sW 2 :=
  ⟨rfl, by decide, by decide,
   (C9_self_transfer sW 1 30 rfl (by decide) (by decide)).1,
   (C9_self_transfer sW 1 30 rfl (by decide) (by decide)).2 1,
   (C9_self_transfer sW 1 30 rfl (by decide) (by decide)).2 2⟩

/-- C10: a delegated self-transfer with a passing gate, sufficient allowance
and balance, and a representable balance succeeds, leaves every balance
unchanged, and decreases the (from, caller) allowance by exactly N. -/
theorem C10_delegated_self_transfer (s : SimpleToken) (c frm : AccountId) (n : Nat)
    (hct : can_transfer s frm frm = Except.ok ())
    (hal : n ≤ allowance s frm c)
    (hb : n ≤ balance_of s frm)
    (hwf : balance_of s frm ≤ U128_MAX) :
    (transfer_from s c frm frm n).2 = Except.ok ()
    ∧ (∀ x, balance_of (transfer_from s c frm frm n).1 x = balance_of s x)
    ∧ allowance (transfer_from s c frm frm n).1 frm c + n = allowance s frm c := by
  have hal2 : ¬((s.allowances.get (frm, c)).getD 0 < n) := by
    simp only [allowance] at hal
    omega
  have hb2 : ¬((s.balances.get frm).getD 0 < n) := by
    simp only [balance_of] at hb
    omega
  have hok : (transfer_from s c frm frm n).2 = Except.ok () := by
    simp [transfer_from, hct, hal2, hb2]
  obtain ⟨-, -, -, hst⟩ := transfer_from_ok_elim hok
  refine ⟨hok, ?_, ?_⟩
  · intro x
    rw [hst]
    by_cases hx : x = frm
    · subst hx
      simp only [balance_of, debitCredit, Mapping.get_insert_self, Option.getD_some, satAdd]
      simp only [balance_of] at hb hwf
      omega
    · simp only [balance_of, debitCredit]
      rw [Mapping.get_insert_ne _ _ _ _ hx, Mapping.get_insert_ne _ _ _ _ hx]
  · rw [hst]
    simp only [allowance, Mapping.get_insert_self, Option.getD_some]
    simp only [allowance] at hal
    omega

/-- Witness for C10: a delegated self-transfer of 20 on account 1 by
spender 3 at a concrete state. -/
theorem C10_delegated_self_transfer_witness :
    can_transfer sW 1 1 = Except.ok () ∧ 20 ≤ allowance sW 1 3 ∧ 20 ≤ balance_of sW 1
    ∧ balance_of sW 1 ≤ U128_MAX
    ∧ (transfer_from sW 3 1 1 20).2 = Except.ok ()
    ∧ balance_of (transfer_from sW 3 1 1 20).1 1 = balance_of sW 1
    ∧ balance_of (transfer_from sW 3 1 1 20).1 2 = balance_of sW 2
    ∧ allowance (transfer_from sW 3 1 1 20).1 1 3 + 20 = allowance sW 1 3 :=
  ⟨rfl, by decide, by decide, by decide,
   (C10_delegated_self_transfer sW 3 1 20 rfl (by decide) (by decide) (by decide)).1,
   (C10_delegated_self_transfer sW 3 1 20 rfl (by decide) (by decide) (by decide)).2.1 1,
   (C10_delegated_self_transfer sW 3 1 20 rfl (by decide) (by decide) (by decide)).2.1 2,
   (C10_delegated_self_transfer sW 3 1 20 rfl (by decide) (by decide) (by decide)).2.2⟩
